import Mathlib

/-!
Verification of the access-control core of the admin-login repository.

The definitions below are shallow embeddings of the TypeScript source:
* `hasPermission`, `useAuth` — `src/hooks/useAuth.ts`
* `middleware` — `src/middleware.ts` (quoted in the repository's docs)
* `requireAdmin`, `DELETE` — server guard and the guarded delete handler
* `Project`, `insertProject` — `prisma/migrations/.../migration.sql`
* `formSchemaValidate` — `src/app/admin/projects/_components/project-form.tsx`
-/

/-- A user as carried by a resolved session.  The `role` field is optional:
the TypeScript code reads it from an untyped object (`(user as { role?: string })?.role`),
so it may be absent. -/
structure User where
  role : Option String
deriving Repr, DecidableEq

/-- A resolved session carries a user.  `Option Session` models
`Session | null` of the session resolver. -/
structure Session where
  user : User
deriving Repr, DecidableEq

/-- `editorPermissions` from `useAuth.ts` lines 30-37: the allow-list consulted
for role MANAGER. -/
def editorPermissions : List String :=
  ["agenda:read", "agenda:create", "agenda:update", "agenda:delete",
   "profile:read_own", "profile:update_own"]

/-- `userPermissions` from `useAuth.ts` lines 42-46: the allow-list consulted
for every role other than ADMIN and MANAGER. -/
def userPermissions : List String :=
  ["agenda:read", "profile:read_own", "profile:update_own"]

/-- The body of the `hasPermission` closure from `useAuth.ts` lines 24-49,
parameterised by the `userRole` string it closes over:
ADMIN always true; MANAGER checks `editorPermissions.includes`;
anything else checks `userPermissions.includes`. -/
def hasPermission (userRole : String) (permission : String) : Bool :=
  if userRole = "ADMIN" then true
  else if userRole = "MANAGER" then editorPermissions.contains permission
  else userPermissions.contains permission

/-- `userRole` derivation from `useAuth.ts` line 8:
`((user as { role?: string })?.role as UserRole) || "USER"`.
JavaScript `||` falls through on `undefined` and on the empty string. -/
def resolveUserRole (user : Option User) : String :=
  match user with
  | none => "USER"
  | some u =>
    match u.role with
    | none => "USER"
    | some r => if r = "" then "USER" else r

/-- The record returned by the `useAuth` hook (`useAuth.ts` lines 10-56),
restricted to its pure, session-derived fields. -/
structure AuthFacade where
  isAuthenticated : Bool
  role : String
  isAdmin : Bool
  isEditor : Bool
  canManageContent : Bool
  hasPermission : String → Bool

/-- The `useAuth` hook (`useAuth.ts` lines 4-57) as a pure function of the
resolved session. -/
def useAuth (session : Option Session) : AuthFacade :=
  let user := session.map Session.user
  let userRole := resolveUserRole user
  { isAuthenticated := session.isSome
    role := userRole
    isAdmin := userRole = "ADMIN"
    isEditor := userRole = "MANAGER"
    canManageContent := userRole = "ADMIN" || userRole = "MANAGER"
    hasPermission := fun permission => hasPermission userRole permission }

/-- C1: `hasPermission(role, p)` is true for every `p` when the role is ADMIN;
for USER it is true exactly on the allow-list
`{agenda:read, profile:read_own, profile:update_own}`; for MANAGER exactly on
USER's list plus `{agenda:create, agenda:update, agenda:delete}`. -/
theorem hasPermission_role_model (p : String) :
    hasPermission "ADMIN" p = true ∧
    (hasPermission "USER" p = true ↔
      (p = "agenda:read" ∨ p = "profile:read_own" ∨ p = "profile:update_own")) ∧
    (hasPermission "MANAGER" p = true ↔
      ((p = "agenda:read" ∨ p = "profile:read_own" ∨ p = "profile:update_own") ∨
       (p = "agenda:create" ∨ p = "agenda:update" ∨ p = "agenda:delete"))) := by
  refine ⟨rfl, ?_, ?_⟩
  all_goals
    simp [hasPermission, editorPermissions, userPermissions, List.contains]
    try tauto

/-- Outcome of the route guard: `NextResponse.redirect(url)` with the rewritten
pathname, or `NextResponse.next()` letting the request proceed to the handler. -/
inductive RouteDecision where
  | redirect (target : String)
  | next
deriving Repr, DecidableEq

/-- JavaScript `s.startsWith(p)`, embedded as a codepoint-list test so that
concrete instances evaluate. -/
def strStartsWith (s p : String) : Bool :=
  p.data.isPrefixOf s.data

/-- `middleware` from `src/middleware.ts` as a pure function of the request path
and the resolved session: no session redirects to `/login`; on an `/admin` path
a role other than ADMIN/MANAGER redirects to `/`; otherwise `next()`.
The matcher config restricts invocation to `/admin/:path*`. -/
def middleware (path : String) (session : Option Session) : RouteDecision :=
  match session with
  | none => RouteDecision.redirect "/login"
  | some s =>
    let userRole := s.user.role
    if strStartsWith path "/admin" then
      if userRole ≠ some "ADMIN" ∧ userRole ≠ some "MANAGER" then
        RouteDecision.redirect "/"
      else
        RouteDecision.next
    else
      RouteDecision.next

/-- C2: on every path under the protected `/admin` prefix, the route guard
redirects a null session to the login path, redirects a session whose role is
neither MANAGER nor ADMIN to the safe default path, and otherwise lets the
request proceed; a redirect means the page handler is never reached. -/
theorem middleware_admin_guard (path : String) (session : Option Session)
    (h : strStartsWith path "/admin" = true) :
    (session = none → middleware path session = RouteDecision.redirect "/login") ∧
    (∀ s, session = some s → s.user.role ≠ some "ADMIN" → s.user.role ≠ some "MANAGER" →
      middleware path session = RouteDecision.redirect "/") ∧
    (∀ s, session = some s →
      (s.user.role = some "ADMIN" ∨ s.user.role = some "MANAGER") →
      middleware path session = RouteDecision.next) := by
  refine ⟨?_, ?_, ?_⟩
  · rintro rfl; rfl
  · rintro s rfl h1 h2
    simp [middleware, h, h1, h2]
  · rintro s rfl h1
    rcases h1 with h1 | h1 <;> simp [middleware, h, h1]

/-- C2 witness: concrete runs of the guard on `/admin/projects`. -/
theorem middleware_admin_guard_witness :
    strStartsWith "/admin/projects" "/admin" = true ∧
    middleware "/admin/projects" none = RouteDecision.redirect "/login" ∧
    middleware "/admin/projects" (some ⟨⟨some "USER"⟩⟩) = RouteDecision.redirect "/" ∧
    middleware "/admin/projects" (some ⟨⟨some "MANAGER"⟩⟩) = RouteDecision.next := by
  refine ⟨by decide, ?_, ?_, ?_⟩
  · exact (middleware_admin_guard "/admin/projects" none (by decide)).1 rfl
  · exact (middleware_admin_guard "/admin/projects" (some ⟨⟨some "USER"⟩⟩)
      (by decide)).2.1 _ rfl (by decide) (by decide)
  · exact (middleware_admin_guard "/admin/projects" (some ⟨⟨some "MANAGER"⟩⟩)
      (by decide)).2.2 _ rfl (Or.inr rfl)

/-- Modelled from the spec: `requireAdmin` lives in `src/lib/auth-server-utils.ts`,
which is not among the provided source files (only its documentation and callers
are).  Per the spec it resolves the session server-side and either returns the
authenticated user or fails with an "Unauthorized" condition; it requires role
ADMIN. -/
def requireAdmin (session : Option Session) : Except String User :=
  match session with
  | none => Except.error "Unauthorized"
  | some s =>
    if s.user.role = some "ADMIN" then Except.ok s.user
    else Except.error "Unauthorized"

/-- An agenda record held by the persistence layer; the guarded handler deletes
one by id. -/
structure Agenda where
  id : String
deriving Repr, DecidableEq

/-- An HTTP response, reduced to its status code. -/
structure ApiResponse where
  status : Nat
deriving Repr, DecidableEq

/-- The `DELETE` route handler (quoted in the repository docs from
`src/app/api/agenda/[id]/route.ts`): it runs `requireAdmin()` first; on guard
failure the catch branch answers 401 and the deletion is never executed; on
success it deletes the record and answers 200.  The handler returns the
response together with the resulting database state. -/
def DELETE (session : Option Session) (db : List Agenda) (id : String) :
    ApiResponse × List Agenda :=
  match requireAdmin session with
  | Except.error _ => (⟨401⟩, db)
  | Except.ok _ => (⟨200⟩, db.filter (fun a => a.id ≠ id))

/-- C3: when the caller's session lacks role ADMIN (role MANAGER, any other
non-ADMIN role, or no session at all), the requireAdmin-gated DELETE handler
answers 401 and the database is unchanged — the guarded deletion is never
executed on the failure path. -/
theorem requireAdmin_gate_blocks_mutation (session : Option Session)
    (db : List Agenda) (id : String)
    (h : ∀ s, session = some s → s.user.role ≠ some "ADMIN") :
    (DELETE session db id).1.status = 401 ∧ (DELETE session db id).2 = db := by
  match hs : session with
  | none => exact ⟨rfl, rfl⟩
  | some s =>
    have hr := h s rfl
    simp [DELETE, requireAdmin, hr]

/-- C3 witness: a MANAGER session calling the guarded DELETE gets 401 and the
stored record survives. -/
theorem requireAdmin_gate_blocks_mutation_witness :
    (DELETE (some ⟨⟨some "MANAGER"⟩⟩) [⟨"a1"⟩] "a1").1.status = 401 ∧
    (DELETE (some ⟨⟨some "MANAGER"⟩⟩) [⟨"a1"⟩] "a1").2 = [⟨"a1"⟩] :=
  requireAdmin_gate_blocks_mutation (some ⟨⟨some "MANAGER"⟩⟩) [⟨"a1"⟩] "a1"
    (by intro s hs; injection hs with h; subst h; decide)

/-- C4 counterexample: the claim says the `isEditor` alias of `isManagerOrAdmin`
returns true for role ADMIN; in the code `isEditor` is `userRole === "MANAGER"`,
so for an ADMIN session it is false. -/
theorem isEditor_admin_counterexample :
    (useAuth (some ⟨⟨some "ADMIN"⟩⟩)).isEditor = false := by
  decide

/-- C4 (amended): `isAdmin` is true iff the role is ADMIN and `canManageContent`
is true iff the role is MANAGER or ADMIN, but the `isEditor` field is true iff
the role is exactly MANAGER — it is not an `isManagerOrAdmin` alias and is false
for ADMIN. -/
theorem useAuth_role_predicates (session : Option Session) :
    ((useAuth session).isAdmin = true ↔ (useAuth session).role = "ADMIN") ∧
    ((useAuth session).canManageContent = true ↔
      ((useAuth session).role = "MANAGER" ∨ (useAuth session).role = "ADMIN")) ∧
    ((useAuth session).isEditor = true ↔ (useAuth session).role = "MANAGER") := by
  simp [useAuth]
  tauto

/-- C5: MANAGER's allow-list is a superset of USER's — every permission granted
to USER is granted to MANAGER. -/
theorem manager_superset_user (p : String)
    (h : hasPermission "USER" p = true) :
    hasPermission "MANAGER" p = true := by
  simp [hasPermission, editorPermissions, userPermissions, List.contains] at h ⊢
  tauto

/-- C5 witness: `agenda:read` is granted to USER and hence to MANAGER. -/
theorem manager_superset_user_witness :
    hasPermission "USER" "agenda:read" = true ∧
    hasPermission "MANAGER" "agenda:read" = true :=
  ⟨by decide, manager_superset_user "agenda:read" (by decide)⟩

/-- C6: when a session exists but its user carries no role field, the facade
reports role USER, `isAdmin` and `canManageContent` are false, and
`hasPermission` coincides with the USER-role permission check. -/
theorem absent_role_defaults_to_user (s : Session) (h : s.user.role = none) :
    (useAuth (some s)).role = "USER" ∧
    (useAuth (some s)).isAdmin = false ∧
    (useAuth (some s)).canManageContent = false ∧
    ∀ p, (useAuth (some s)).hasPermission p = hasPermission "USER" p := by
  simp [useAuth, resolveUserRole, h]

/-- C6 witness: a session whose user has no role field. -/
theorem absent_role_defaults_to_user_witness :
    (⟨⟨none⟩⟩ : Session).user.role = none ∧
    ((useAuth (some ⟨⟨none⟩⟩)).role = "USER" ∧
     (useAuth (some ⟨⟨none⟩⟩)).isAdmin = false ∧
     (useAuth (some ⟨⟨none⟩⟩)).canManageContent = false ∧
     ∀ p, (useAuth (some ⟨⟨none⟩⟩)).hasPermission p = hasPermission "USER" p) :=
  ⟨rfl, absent_role_defaults_to_user ⟨⟨none⟩⟩ rfl⟩

/-- C7: a session whose user.role is the empty string or any string other than
"ADMIN" and "MANAGER" is treated with least privilege: `isAdmin`, `isEditor`
and `canManageContent` are false and `hasPermission` grants exactly USER's
allow-list. -/
theorem unknown_role_least_privilege (s : Session) (r : String)
    (h : s.user.role = some r) (hA : r ≠ "ADMIN") (hM : r ≠ "MANAGER") :
    (useAuth (some s)).isAdmin = false ∧
    (useAuth (some s)).isEditor = false ∧
    (useAuth (some s)).canManageContent = false ∧
    ∀ p, ((useAuth (some s)).hasPermission p = true ↔
      (p = "agenda:read" ∨ p = "profile:read_own" ∨ p = "profile:update_own")) := by
  have hu : resolveUserRole (some s.user) ≠ "ADMIN" ∧
      resolveUserRole (some s.user) ≠ "MANAGER" := by
    simp only [resolveUserRole, h]
    split <;> simp_all
  refine ⟨?_, ?_, ?_, ?_⟩
  · simp [useAuth, hu.1]
  · simp [useAuth, hu.2]
  · simp [useAuth, hu.1, hu.2]
  · intro p
    simp [useAuth, hasPermission, hu.1, hu.2, userPermissions, List.contains]
    try tauto

/-- C7 witness: a session carrying the unknown role "GUEST". -/
theorem unknown_role_least_privilege_witness :
    ((⟨⟨some "GUEST"⟩⟩ : Session).user.role = some "GUEST" ∧
     "GUEST" ≠ "ADMIN" ∧ "GUEST" ≠ "MANAGER") ∧
    ((useAuth (some ⟨⟨some "GUEST"⟩⟩)).isAdmin = false ∧
     (useAuth (some ⟨⟨some "GUEST"⟩⟩)).isEditor = false ∧
     (useAuth (some ⟨⟨some "GUEST"⟩⟩)).canManageContent = false ∧
     ∀ p, ((useAuth (some ⟨⟨some "GUEST"⟩⟩)).hasPermission p = true ↔
       (p = "agenda:read" ∨ p = "profile:read_own" ∨ p = "profile:update_own"))) :=
  ⟨⟨rfl, by decide, by decide⟩,
   unknown_role_least_privilege ⟨⟨some "GUEST"⟩⟩ "GUEST" rfl
     (by decide) (by decide)⟩

/-- C8: the guard decision functions are deterministic and stateless — as pure
functions of their inputs, two evaluations on the same input agree — and
`hasPermission` is total, yielding a boolean (true or false, never an
exception) for every role string and every permission string. -/
theorem guards_deterministic_and_total (path : String) (session : Option Session)
    (role p : String) :
    middleware path session = middleware path session ∧
    hasPermission role p = hasPermission role p ∧
    (hasPermission role p = true ∨ hasPermission role p = false) := by
  refine ⟨rfl, rfl, ?_⟩
  cases hasPermission role p <;> simp

/-- A persisted `Project` row, from
`prisma/migrations/20251113154420_model_project/migration.sql`: `id`, `title`,
`description` and `imageUrl` are `TEXT NOT NULL`; `link` is nullable `TEXT`;
`order` is nullable `INTEGER`; `isActive` is `BOOLEAN NOT NULL DEFAULT true`;
`createdAt` and `updatedAt` are `TIMESTAMP NOT NULL`, `createdAt` defaulting to
`CURRENT_TIMESTAMP`.  Required columns are non-optional fields; nullable
columns are `Option`. -/
structure Project where
  id : String
  title : String
  description : String
  imageUrl : String
  link : Option String
  order : Option Int
  isActive : Bool
  createdAt : Nat
  updatedAt : Nat
deriving Repr, DecidableEq

/-- The values supplied on an INSERT into `Project`: columns with no SQL
default must be supplied; `isActive` and `createdAt` may be left unspecified
(`none`), in which case the column defaults apply. -/
structure ProjectInsert where
  id : String
  title : String
  description : String
  imageUrl : String
  link : Option String
  order : Option Int
  isActive : Option Bool
  createdAt : Option Nat
  updatedAt : Nat
deriving Repr, DecidableEq

/-- Row construction on INSERT, applying the column defaults of the migration:
`isActive` defaults to `true`, `createdAt` to the current timestamp. -/
def insertProject (now : Nat) (row : ProjectInsert) : Project :=
  { id := row.id
    title := row.title
    description := row.description
    imageUrl := row.imageUrl
    link := row.link
    order := row.order
    isActive := row.isActive.getD true
    createdAt := row.createdAt.getD now
    updatedAt := row.updatedAt }

/-- C9: a persisted Project row carries its required id, title, description and
imageUrl verbatim (non-null by construction), keeps the optional link and
ordering values (which may be none), and when created without specifying
`isActive` the stored flag defaults to true; an unspecified `createdAt`
defaults to the insertion timestamp. -/
theorem project_insert_defaults (now : Nat) (row : ProjectInsert)
    (h : row.isActive = none) :
    (insertProject now row).isActive = true ∧
    (insertProject now row).id = row.id ∧
    (insertProject now row).title = row.title ∧
    (insertProject now row).description = row.description ∧
    (insertProject now row).imageUrl = row.imageUrl ∧
    (insertProject now row).link = row.link ∧
    (insertProject now row).order = row.order ∧
    (row.createdAt = none → (insertProject now row).createdAt = now) := by
  refine ⟨?_, rfl, rfl, rfl, rfl, rfl, rfl, ?_⟩
  · simp [insertProject, h]
  · intro hc; simp [insertProject, hc]

/-- C9 witness: inserting a row with `isActive` and `createdAt` unspecified and
no link. -/
theorem project_insert_defaults_witness :
    (⟨"p1", "Site", "A site", "/img.png", none, none, none, none,
       1700000000⟩ : ProjectInsert).isActive = none ∧
    (insertProject 1700000000
      ⟨"p1", "Site", "A site", "/img.png", none, none, none, none,
       1700000000⟩).isActive = true :=
  ⟨rfl,
   (project_insert_defaults 1700000000
     ⟨"p1", "Site", "A site", "/img.png", none, none, none, none,
      1700000000⟩ rfl).1⟩

/-- The values bound by the project create/edit form
(`project-form.tsx` lines 25-39); `link` is `z.string().optional()`, so it may
be absent. -/
structure FormValues where
  title : String
  imageUrl : String
  link : Option String
  description : String
  isActive : Bool
deriving Repr, DecidableEq

/-- `formSchema` from `project-form.tsx` lines 25-39 as a validator:
`title` needs `.min(1)`, `.min(3)` and `.max(100)`; `imageUrl` needs `.min(1)`;
`description` needs `.max(500)`; `link` and `isActive` carry no length
constraint. -/
def formSchemaValidate (v : FormValues) : Bool :=
  decide (1 ≤ v.title.length) && decide (3 ≤ v.title.length) &&
    decide (v.title.length ≤ 100) &&
  decide (1 ≤ v.imageUrl.length) &&
  decide (v.description.length ≤ 500)

/-- C10: the form validator accepts an input exactly when the title is between
3 and 100 characters, the imageUrl is non-empty and the description is at most
500 characters; the link field is unconstrained and may be omitted entirely
without changing the outcome. -/
theorem formSchema_accepts_iff (v : FormValues) :
    (formSchemaValidate v = true ↔
      (3 ≤ v.title.length ∧ v.title.length ≤ 100 ∧
       1 ≤ v.imageUrl.length ∧ v.description.length ≤ 500)) ∧
    formSchemaValidate { v with link := none } = formSchemaValidate v := by
  constructor
  · simp [formSchemaValidate]
    omega
  · rfl
